import Mathlib

/-
Verification development for the cupertino stream-processing service.

Shallow embedding of the Python sources:
- cupertino_zone/geometry/shapes.py      (PolygonZone, LineZone)
- cupertino_zone/geometry/detector.py    (ZoneDetector)
- cupertino_zone/analytics/counter.py    (ZoneCounter, ZoneStats)
- cupertino_zone/analytics/tracker.py    (CrossingTracker)
- cupertino_processor/registry.py        (ZoneMonitorRegistry, ManagedZone)
- cupertino_processor/service.py         (publish queue, on_prediction)
- cupertino_control/registry.py          (CommandRegistry)
- cupertino_control/plane.py             (MQTTControlPlane._on_message)
- cupertino_mqtt/schemas/{common,detection,zone_event}.py

Modelling conventions:
- Python floats are modelled as elements of a linear ordered ring where only
  ring operations and comparisons occur (line-side computation), and as the
  rationals where truncation to int occurs (polygon point queries).
- Python dicts with int keys are modelled as functions Int Option Int;
  dicts with string keys as association lists with unique keys.
- Exceptions are modelled with Except; a raised exception is an error value.
-/

namespace Zone

/-- State of a CrossingTracker (tracker.py): a Python dict mapping
tracker_id to the last observed side, modelled as a partial map. -/
def StateMap : Type := Int → Option Int

/-- Dict assignment new_state[tracker_id] = side (pointwise functional update,
matching the semantics of mutating a copied Python dict). -/
def stateInsert (st : StateMap) (tracker_id : Int) (side : Int) : StateMap :=
  fun t => if t = tracker_id then some side else st t

/-- CrossingTracker() starts with an empty dict (tracker.py __init__). -/
def emptyState : StateMap := fun _ => none

/-- LineZone (shapes.py): immutable line segment given by two distinct points.
Coordinates are Python floats; they are modelled generically over a linear
ordered ring, which covers the rationals (the float model). The start/end
distinctness validation of __post_init__ is not needed by any claim. -/
structure LineZone (R : Type) where
  start : R × R
  stop : R × R

variable {R : Type} [LinearOrderedRing R]

/-- Precomputed line vector end - start (shapes.py __post_init__). -/
def LineZone.vector (z : LineZone R) : R × R :=
  (z.stop.1 - z.start.1, z.stop.2 - z.start.2)

/-- LineZone.get_side (shapes.py): sign of the 2D cross product
(end - start) x (point - start); 1 = left, -1 = right, 0 = on the line. -/
def LineZone.get_side (z : LineZone R) (point : R × R) : Int :=
  let to_point : R × R := (point.1 - z.start.1, point.2 - z.start.2)
  let cross : R := (z.vector).1 * to_point.2 - (z.vector).2 * to_point.1
  if 0 < cross then 1
  else if cross < 0 then -1
  else 0

/-- PolygonZone (shapes.py): immutable polygon with a rasterized boolean mask.
The mask is produced at construction time by cv2.fillPoly (an external
library, out of src); it is therefore carried abstractly as a boolean
function indexed mask[y][x], exactly as contains_point reads it. -/
structure PolygonZone where
  vertices : List (Int × Int)
  frame_resolution_wh : Int × Int
  mask : Int → Int → Bool

/-- Python int() applied to a float: truncation toward zero. For a rational
in lowest terms this is the truncating division of numerator by denominator. -/
def pyTrunc (q : Rat) : Int := Int.tdiv q.num (q.den : Int)

/-- PolygonZone.contains_point (shapes.py): truncate the coordinates to int,
bounds-check against frame_resolution_wh, then read the mask bit. -/
def PolygonZone.contains_point (z : PolygonZone) (point : Rat × Rat) : Bool :=
  let x := pyTrunc point.1
  let y := pyTrunc point.2
  let width := z.frame_resolution_wh.1
  let height := z.frame_resolution_wh.2
  if 0 ≤ x ∧ x < width ∧ 0 ≤ y ∧ y < height then
    z.mask y x
  else
    false

/-- Detection batch (sv.Detections) restricted to the fields the code reads:
the anchor coordinates (produced by get_anchors_coordinates, one point per
detection), the optional parallel array of tracker ids, and the optional
parallel array of class ids. len(detections) is the number of anchors. -/
structure Detections (R : Type) where
  anchors : List (R × R)
  tracker_id : Option (List Int)
  class_id : Option (List Int)

/-- ZoneDetector.detect_polygon (detector.py): anchor of each detection is
tested against the polygon; an empty batch yields an empty mask. -/
def detect_polygon (zone : PolygonZone) (detections : Detections Rat) : List Bool :=
  if detections.anchors.length = 0 then []
  else detections.anchors.map (fun p => zone.contains_point p)

/-- The condition under which the loop body of detect_line_crossing sets
crossed_in[idx]: the tracker id is a key of the input tracker_state, the
remembered side differs from the current side, the current side is not 0,
and the current side is 1. -/
def crossInB (zone : LineZone R) (tracker_state : StateMap)
    (tracker_id : Int) (p : R × R) : Bool :=
  match tracker_state tracker_id with
  | some previous_side =>
      decide (previous_side ≠ zone.get_side p) &&
      decide (zone.get_side p ≠ 0) &&
      decide (zone.get_side p = 1)
  | none => false

/-- The condition under which the loop body of detect_line_crossing sets
crossed_out[idx]: as crossInB but the current side is -1 (the elif branch). -/
def crossOutB (zone : LineZone R) (tracker_state : StateMap)
    (tracker_id : Int) (p : R × R) : Bool :=
  match tracker_state tracker_id with
  | some previous_side =>
      decide (previous_side ≠ zone.get_side p) &&
      decide (zone.get_side p ≠ 0) &&
      decide (zone.get_side p = -1)
  | none => false

/-- The loop of detect_line_crossing (detector.py lines 118-133) over
zip(detections.tracker_id, anchors): membership and the previous side are
looked up in the immutable input tracker_state, while new_state accumulates
the assignment new_state[tracker_id] = current_side. -/
def lineLoop (zone : LineZone R) (tracker_state : StateMap) :
    List (Int × (R × R)) → StateMap → List Bool × List Bool × StateMap
  | [], new_state => ([], [], new_state)
  | (tracker_id, p) :: rest, new_state =>
    let r := lineLoop zone tracker_state rest
      (stateInsert new_state tracker_id (zone.get_side p))
    (crossInB zone tracker_state tracker_id p :: r.1,
     crossOutB zone tracker_state tracker_id p :: r.2.1,
     r.2.2)

/-- ZoneDetector.detect_line_crossing (detector.py): requires tracker_id
(raises ValueError otherwise, before the empty-batch check); an empty batch
returns two empty masks and the input state unchanged; otherwise it runs the
loop above. The two result masks are allocated as np.zeros(len(detections)),
so entries beyond the zip range stay false (the padding below); tracker ids
produced by ByteTrack always have the same length as the batch, making the
padding empty in every theorem about tracked batches. -/
def detect_line_crossing (zone : LineZone R) (detections : Detections R)
    (tracker_state : StateMap) :
    Except String (List Bool × List Bool × StateMap) :=
  match detections.tracker_id with
  | none => .error "Line crossing detection requires tracker_id"
  | some tids =>
    if detections.anchors.length = 0 then
      .ok ([], [], tracker_state)
    else
      let pairs := tids.zip detections.anchors
      let r := lineLoop zone tracker_state pairs tracker_state
      let pad := List.replicate (detections.anchors.length - pairs.length) false
      .ok (r.1 ++ pad, r.2.1 ++ pad, r.2.2)

/-- Side recorded for tracker t by the last matching element of the zipped
batch, if any: characterizes the loop's final new_state. -/
def lastSeenSide (zone : LineZone R) :
    List (Int × (R × R)) → Int → Option Int
  | [], _ => none
  | (tracker_id, p) :: rest, t =>
    match lastSeenSide zone rest t with
    | some s => some s
    | none => if tracker_id = t then some (zone.get_side p) else none

theorem lineLoop_fst (zone : LineZone R) (st0 : StateMap)
    (pairs : List (Int × (R × R))) (acc : StateMap) :
    (lineLoop zone st0 pairs acc).1 =
      pairs.map (fun q => crossInB zone st0 q.1 q.2) := by
  induction pairs generalizing acc with
  | nil => rfl
  | cons q rest ih => simp [lineLoop, ih]

theorem lineLoop_snd (zone : LineZone R) (st0 : StateMap)
    (pairs : List (Int × (R × R))) (acc : StateMap) :
    (lineLoop zone st0 pairs acc).2.1 =
      pairs.map (fun q => crossOutB zone st0 q.1 q.2) := by
  induction pairs generalizing acc with
  | nil => rfl
  | cons q rest ih => simp [lineLoop, ih]

theorem lineLoop_state (zone : LineZone R) (st0 : StateMap)
    (pairs : List (Int × (R × R))) (acc : StateMap) (t : Int) :
    (lineLoop zone st0 pairs acc).2.2 t =
      match lastSeenSide zone pairs t with
      | some s => some s
      | none => acc t := by
  induction pairs generalizing acc with
  | nil => rfl
  | cons q rest ih =>
    obtain ⟨tid, p⟩ := q
    simp only [lineLoop, lastSeenSide, ih]
    cases h : lastSeenSide zone rest t with
    | some s => rfl
    | none =>
      simp only [stateInsert]
      by_cases ht : t = tid
      · subst ht; simp
      · have htid : ¬tid = t := fun hh => ht hh.symm
        simp [htid, ht]

/-- ZoneStats (analytics/counter.py): immutable statistics snapshot. The
classwise_counts dict is modelled as a total function with default 0
(defaultdict semantics). -/
structure ZoneStats where
  zone_id : String
  current_count : Nat
  total_entered : Nat
  total_exited : Nat
  classwise_counts : String → Nat

/-- ZoneCounter (analytics/counter.py): mutable accumulator state, modelled
as a value record threaded through updates. -/
structure ZoneCounter where
  zone_id : String
  current_count : Nat
  total_entered : Nat
  total_exited : Nat
  classwise_counts : String → Nat

/-- ZoneCounter(zone_id): all counters start at zero, classwise empty. -/
def ZoneCounter.init (zone_id : String) : ZoneCounter :=
  ⟨zone_id, 0, 0, 0, fun _ => 0⟩

/-- class_names.get(class_id, default) with default "class_<id>"
(counter.py lines 114, 143, 150). -/
def className (class_names : Option (Int → Option String)) (class_id : Int) :
    String :=
  match class_names with
  | some f => (f class_id).getD ("class_" ++ toString class_id)
  | none => "class_" ++ toString class_id

/-- classwise_counts[name] += 1 on a defaultdict. -/
def bumpClass (h : String → Nat) (name : String) : String → Nat :=
  fun k => if k = name then h name + 1 else h k

/-- The classwise accumulation loops of counter.py: for each index selected
by the mask, increment the count of the detection's class name (suffixed for
line zones). np.where(mask) followed by indexing class_id is the traversal
of the zipped (mask, class_id) pairs restricted to true mask entries. -/
def histAccum (class_names : Option (Int → Option String)) (suffix : String) :
    (String → Nat) → List (Bool × Int) → (String → Nat)
  | h, [] => h
  | h, (b, class_id) :: rest =>
    histAccum class_names suffix
      (if b then bumpClass h (className class_names class_id ++ suffix) else h)
      rest

/-- ZoneCounter.update_polygon (counter.py): current_count becomes the
popcount of the mask; classwise_counts is cleared and rebuilt from the
masked subset when class_id is present and the mask is nonempty. -/
def ZoneCounter.update_polygon (c : ZoneCounter) (mask : List Bool)
    (detections : Zone.Detections Rat)
    (class_names : Option (Int → Option String)) : ZoneCounter :=
  let cleared : String → Nat := fun _ => 0
  match detections.class_id with
  | some cids =>
    if 0 < mask.length then
      { c with current_count := mask.count true,
               classwise_counts := histAccum class_names "" cleared (mask.zip cids) }
    else
      { c with current_count := mask.count true, classwise_counts := cleared }
  | none =>
    { c with current_count := mask.count true, classwise_counts := cleared }

/-- ZoneCounter.update_line (counter.py): accumulate the popcounts of the
two crossing masks into the running totals and accumulate classwise counts
with the _IN / _OUT suffixes when class_id is present. -/
def ZoneCounter.update_line (c : ZoneCounter) (crossed_in crossed_out : List Bool)
    (detections : Zone.Detections Rat)
    (class_names : Option (Int → Option String)) : ZoneCounter :=
  let c1 := { c with total_entered := c.total_entered + crossed_in.count true,
                     total_exited := c.total_exited + crossed_out.count true }
  match detections.class_id with
  | some cids =>
    if 0 < crossed_in.length then
      let hIn := histAccum class_names "_IN" c1.classwise_counts (crossed_in.zip cids)
      let hOut := histAccum class_names "_OUT" hIn (crossed_out.zip cids)
      { c1 with classwise_counts := hOut }
    else c1
  | none => c1

/-- ZoneCounter.get_stats (counter.py): immutable snapshot of the counters. -/
def ZoneCounter.get_stats (c : ZoneCounter) : ZoneStats :=
  ⟨c.zone_id, c.current_count, c.total_entered, c.total_exited, c.classwise_counts⟩

end Zone

namespace Proc

/-- Zone geometry stored by the registry (registry.py): polygon or line
(PolygonZone | LineZone), a tagged sum. Line coordinates are rationals here,
the model of the Python floats. -/
inductive ZoneGeom where
  | poly (z : Zone.PolygonZone)
  | line (z : Zone.LineZone Rat)

/-- Whether two geometries have the same Python type (type(old) == type(new)). -/
def ZoneGeom.sameKind : ZoneGeom → ZoneGeom → Prop
  | .poly _, .poly _ => True
  | .line _, .line _ => True
  | _, _ => False

instance : DecidableRel ZoneGeom.sameKind := fun a b => by
  cases a <;> cases b <;> simp [ZoneGeom.sameKind] <;> infer_instance

/-- ManagedZone (registry.py): zone geometry plus its analytics state.
tracker is present iff the zone is a line zone. -/
structure ManagedZone where
  zone_id : String
  zone : ZoneGeom
  counter : Zone.ZoneCounter
  tracker : Option Zone.StateMap
  enabled : Bool

/-- The tracker created for a fresh managed zone: CrossingTracker() for a
line zone, None for a polygon zone (registry.py add_* and update_zone). -/
def freshTracker : ZoneGeom → Option Zone.StateMap
  | .poly _ => none
  | .line _ => some Zone.emptyState

/-- The registry's dict of managed zones, keyed by zone_id. Python dicts
have unique keys; an association list models iteration order and lookup. -/
def Registry : Type := List (String × ManagedZone)

/-- Dict lookup zone_id in self._managed_zones. -/
def Registry.lookup : Registry → String → Option ManagedZone
  | [], _ => none
  | (k, v) :: rest, key => if k = key then some v else Registry.lookup rest key

/-- Dict assignment self._managed_zones[zone_id] = new_managed for a key
already present: replaces the entry in place. -/
def Registry.replace (reg : Registry) (key : String) (mz : ManagedZone) :
    Registry :=
  reg.map (fun p => if p.1 = key then (key, mz) else p)

/-- ZoneMonitorRegistry.update_zone (registry.py lines 195-241): fail with
KeyError when the id is absent; fail with ValueError when the new shape's
Python type differs from the old; otherwise replace the entry with a new
ManagedZone carrying the new geometry, a fresh counter, a fresh tracker for
line zones, and the old enabled flag. -/
def Registry.update_zone (reg : Registry) (zone_id : String) (zone : ZoneGeom) :
    Except String Registry :=
  match reg.lookup zone_id with
  | none => .error "Zone not found"
  | some old_managed =>
    if ZoneGeom.sameKind old_managed.zone zone then
      .ok (reg.replace zone_id
        ⟨zone_id, zone, Zone.ZoneCounter.init zone_id, freshTracker zone,
         old_managed.enabled⟩)
    else
      .error "Cannot change zone type"

/-- Result stored in the trigger() results dict for one zone: a mask plus
stats for polygons, a pair of crossing masks plus stats for lines. -/
inductive ZoneResult where
  | polygonResult (mask : List Bool) (stats : Zone.ZoneStats)
  | lineResult (crossed_in crossed_out : List Bool) (stats : Zone.ZoneStats)

/-- The stats component of a trigger result. -/
def ZoneResult.stats : ZoneResult → Zone.ZoneStats
  | .polygonResult _ s => s
  | .lineResult _ _ s => s

/-- The loop body of ZoneMonitorRegistry.trigger (registry.py lines 322-355)
for one managed zone: polygon zones run detect_polygon and update_polygon;
line zones require a tracker (RuntimeError otherwise), run
detect_line_crossing (whose ValueError propagates), store the new tracker
state and run update_line. Returns the zone's result and its updated
analytics state. -/
def triggerZone (mz : ManagedZone) (detections : Zone.Detections Rat)
    (class_names : Option (Int → Option String)) :
    Except String (ZoneResult × ManagedZone) :=
  match mz.zone with
  | .poly z =>
    let mask := Zone.detect_polygon z detections
    let counter := mz.counter.update_polygon mask detections class_names
    .ok (.polygonResult mask counter.get_stats, { mz with counter := counter })
  | .line z =>
    match mz.tracker with
    | none => .error "Line zone missing tracker"
    | some tracker_state =>
      match Zone.detect_line_crossing z detections tracker_state with
      | .error e => .error e
      | .ok (crossed_in, crossed_out, new_state) =>
        let counter := mz.counter.update_line crossed_in crossed_out detections
          class_names
        .ok (.lineResult crossed_in crossed_out counter.get_stats,
             { mz with counter := counter, tracker := some new_state })

/-- ZoneMonitorRegistry.trigger (registry.py): snapshot the enabled zones,
process each with the loop body, collect the results dict; counter and
tracker mutations are reflected as the updated registry. -/
def Registry.trigger (reg : Registry) (detections : Zone.Detections Rat)
    (class_names : Option (Int → Option String)) :
    Except String (List (String × ZoneResult) × Registry) :=
  match reg with
  | [] => .ok ([], [])
  | (k, mz) :: rest =>
    if mz.enabled then
      match triggerZone mz detections class_names with
      | .error e => .error e
      | .ok (r, mz2) =>
        match Registry.trigger rest detections class_names with
        | .error e => .error e
        | .ok (rs, rest2) => .ok ((k, r) :: rs, (k, mz2) :: rest2)
    else
      match Registry.trigger rest detections class_names with
      | .error e => .error e
      | .ok (rs, rest2) => .ok (rs, (k, mz) :: rest2)

/-- The empty tracked batch: no detections, tracker ids present (as an empty
array, the shape ByteTrack emits for an empty frame), no class ids. -/
def emptyBatch : Zone.Detections Rat := ⟨[], some [], none⟩

end Proc

namespace Service

/-- The two envelope kinds queued by on_prediction (service.py lines 529-530). -/
inductive EnvelopeKind where
  | detection
  | zone_event
deriving DecidableEq

/-- The capacity of the publish queue (service.py line 137:
queue.Queue(maxsize=512)). -/
def publishQueueMaxsize : Nat := 512

/-- The publish queue: a bounded FIFO of (envelope_kind, envelope) tuples.
Items are stored newest first (put conses at the head); the FIFO get of the
publisher worker takes from the tail. M is the envelope payload type (the
message dicts built by the service). -/
def Queue (M : Type) : Type := List (EnvelopeKind × M)

/-- queue.Queue.put_nowait: enqueue when a slot is free, raise queue.Full
otherwise. The size check len(queue) >= maxsize is the gate. -/
def putNowait {M : Type} (q : Queue M) (item : EnvelopeKind × M) :
    Except Unit (Queue M) :=
  if q.length < publishQueueMaxsize then .ok (item :: q) else .error ()

/-- queue.Queue.get: dequeue the oldest item, if any (publisher worker). -/
def getOldest {M : Type} (q : Queue M) : Option ((EnvelopeKind × M) × Queue M) :=
  match q.getLast? with
  | none => none
  | some item => some (item, q.dropLast)

/-- The enqueue step of StreamProcessorService.on_prediction (service.py
lines 527-532): two put_nowait calls inside one try, detection first; a
queue.Full from either put jumps to the except clause, which logs a single
warning (the second component counts warnings logged). A Full raised by the
detection put therefore also skips the zone_event put. -/
def onPredictionEnqueue {M : Type} (q : Queue M) (detection_msg zone_event_msg : M) :
    Queue M × Nat :=
  match putNowait q (.detection, detection_msg) with
  | .error _ => (q, 1)
  | .ok q1 =>
    match putNowait q1 (.zone_event, zone_event_msg) with
    | .error _ => (q1, 1)
    | .ok q2 => (q2, 0)

/-- A sequence of raw put_nowait attempts with the overflow policy of the
dispatch path (drop on Full); returns the final queue and the number of
messages dropped. Models n puts performed while the publisher worker is
stopped (no concurrent gets). -/
def putAll {M : Type} (q : Queue M) : List (EnvelopeKind × M) → Queue M × Nat
  | [] => (q, 0)
  | item :: rest =>
    match putNowait q item with
    | .ok q1 => putAll q1 rest
    | .error _ =>
      let r := putAll q rest
      (r.1, r.2 + 1)

/-- n consecutive on_prediction dispatches while the publisher worker is
stopped: returns the final queue and the total number of warnings logged. -/
def runFrames {M : Type} (det zev : M) : Nat → Queue M × Nat
  | 0 => ([], 0)
  | n + 1 =>
    let r := runFrames det zev n
    let s := onPredictionEnqueue r.1 det zev
    (s.1, r.2 + s.2)

end Service

namespace Control

/-- A command handler (control/registry.py): handlers mutate service state;
a raised exception is modelled as an error result. S is the service state. -/
def Handler (S : Type) : Type := S → Except String S

/-- CommandRegistry (control/registry.py): dict command -> handler, with a
parallel description dict (not needed by any claim). -/
structure CommandRegistry (S : Type) where
  commands : List (String × Handler S)

/-- Dict lookup in self._commands. -/
def CommandRegistry.find {S : Type} (r : CommandRegistry S) (command : String) :
    Option (Handler S) :=
  r.commands.lookup command

/-- Outcome of CommandRegistry.execute as observed by the caller. -/
inductive ExecOutcome (S : Type) where
  | ok (s : S)
  | commandNotAvailable
  | handlerRaised (msg : String)

/-- CommandRegistry.execute (control/registry.py lines 83-108): raise
CommandNotAvailableError for an unregistered command; otherwise call the
handler (whose exception propagates to the caller). -/
def CommandRegistry.execute {S : Type} (r : CommandRegistry S) (command : String)
    (st : S) : ExecOutcome S :=
  match r.find command with
  | none => .commandNotAvailable
  | some handler =>
    match handler st with
    | .ok s2 => .ok s2
    | .error e => .handlerRaised e

/-- What MQTTControlPlane._on_message does with a received command, observed
through: the resulting service state, the list of statuses published to the
status topic via publish_status, the log lines emitted, and whether a
handler was invoked. -/
structure MessageEffect (S : Type) where
  state : S
  published : List String
  logs : List String
  handlerInvoked : Bool

/-- MQTTControlPlane._on_message (plane.py lines 225-261) after JSON
decoding, for a payload whose command field holds the given string (already
lowercased by command_data.get('command', '').lower()): an empty command is
dropped with a warning; an unknown command logs the CommandNotAvailableError
and logs the available-commands list, publishing nothing; a handler
exception reaches the outer except clause, which logs the error and
publishes nothing; a successful handler logs success. -/
def onCommand {S : Type} (registry : CommandRegistry S) (command : String)
    (st : S) : MessageEffect S :=
  if command = "" then
    ⟨st, [], ["Empty command received"], false⟩
  else
    match registry.execute command st with
    | .ok s2 =>
      ⟨s2, [], ["Command executed successfully"], true⟩
    | .commandNotAvailable =>
      ⟨st, [], ["Command not available", "Available commands"], false⟩
    | .handlerRaised e =>
      ⟨st, [], ["Error processing message: " ++ e], true⟩

end Control

namespace Mqtt

/-- A JSON-compatible Python value, as produced by the to_dict serializers
and consumed by the from_dict deserializers of cupertino_mqtt/schemas. -/
inductive PyVal where
  | pstr (s : String)
  | pint (n : Int)
  | pfloat (q : Rat)
  | pnone
  | plist (xs : List PyVal)
  | pdict (kvs : List (String × PyVal))

/-- Dict lookup data[key] (first match; schema dicts have unique keys). -/
def dget : List (String × PyVal) → String → Option PyVal
  | [], _ => none
  | (k, v) :: rest, key => if k = key then some v else dget rest key

/-- data.get(key, default). -/
def dgetD (kvs : List (String × PyVal)) (key : String) (dflt : PyVal) : PyVal :=
  match dget kvs key with
  | some v => v
  | none => dflt

/-- key in data. -/
def containsKey (kvs : List (String × PyVal)) (key : String) : Bool :=
  match dget kvs key with
  | some _ => true
  | none => false

/-- data[key], with the KeyError mapped (by the except clauses of the
from_dict methods) to a ValueError about the missing field. -/
def reqKey (kvs : List (String × PyVal)) (key : String) : Except String PyVal :=
  match dget kvs key with
  | some v => .ok v
  | none => .error "Missing required field"

/-- Python float(value) for the values that occur in schema dicts. A numeric
string would also convert in Python; to_dict never emits one, and it is not
modelled. TypeError and ValueError from the conversion are both mapped to
the ValueError of the enclosing except clause. -/
def pyToFloat : PyVal → Except String Rat
  | .pfloat q => .ok q
  | .pint n => .ok (n : Rat)
  | _ => .error "Invalid data: could not convert to float"

/-- Python int(value) for the values that occur in schema dicts; a float
truncates toward zero. A numeric string is not modelled (never emitted by
to_dict). -/
def pyToInt : PyVal → Except String Int
  | .pint n => .ok n
  | .pfloat q => .ok (Zone.pyTrunc q)
  | _ => .error "Invalid data: could not convert to int"

/-- Python str(value) where the schema expects a string. str() of a
non-string never raises in Python but yields a repr no schema produces;
only the string case is modelled. -/
def pyToStr : PyVal → Except String String
  | .pstr s => .ok s
  | _ => .error "Invalid data: not a string"

/-- Decode a value that the typed Optional[int] fields of the wire ZoneStats
hold: None or an int. Python stores any value unchecked here; values of
other shapes are not representable in the typed field and are rejected. -/
def pyOptInt : PyVal → Except String (Option Int)
  | .pnone => .ok none
  | .pint n => .ok (some n)
  | _ => .error "Invalid data: not an optional int"

/-- The list comprehension [f(x) for x in xs] over a deserializer f:
the first failure propagates. -/
def parseList {α : Type} (f : PyVal → Except String α) :
    List PyVal → Except String (List α)
  | [] => .ok []
  | v :: rest =>
    match f v with
    | .error e => .error e
    | .ok a =>
      match parseList f rest with
      | .error e => .error e
      | .ok as2 => .ok (a :: as2)

theorem okBind {ε α β : Type} (a : α) (f : α → Except ε β) :
    (Except.ok a >>= f) = f a := rfl

/-- Timestamp (schemas/common.py): ISO 8601 string wrapper, no validation.
to_dict serializes to the bare string; DetectionMessage.from_dict and
ZoneEventMessage.from_dict rebuild it with Timestamp(value=data['timestamp']). -/
structure Timestamp where
  value : String

/-- BBox (schemas/common.py). -/
structure BBox where
  x : Rat
  y : Rat
  width : Rat
  height : Rat

/-- The BBox constructor with its __post_init__ validation. -/
def BBox.make (x y width height : Rat) : Except String BBox :=
  if width ≤ 0 then .error "BBox width must be > 0"
  else if height ≤ 0 then .error "BBox height must be > 0"
  else .ok ⟨x, y, width, height⟩

/-- BBox.to_dict: asdict(self). -/
def BBox.to_dict (b : BBox) : PyVal :=
  .pdict [("x", .pfloat b.x), ("y", .pfloat b.y),
          ("width", .pfloat b.width), ("height", .pfloat b.height)]

/-- BBox.from_dict (schemas/common.py): float() each required field, then
construct (KeyError / TypeError / ValueError all become ValueError). -/
def BBox.from_dict (v : PyVal) : Except String BBox :=
  match v with
  | .pdict kvs => do
    let xv ← reqKey kvs "x"
    let yv ← reqKey kvs "y"
    let wv ← reqKey kvs "width"
    let hv ← reqKey kvs "height"
    let x ← pyToFloat xv
    let y ← pyToFloat yv
    let w ← pyToFloat wv
    let h ← pyToFloat hv
    BBox.make x y w h
  | _ => .error "Invalid BBox data"

/-- The BBox __post_init__ invariant. -/
def BBox.wf (b : BBox) : Prop := 0 < b.width ∧ 0 < b.height

/-- Detection (schemas/detection.py). -/
structure Detection where
  tracker_id : Int
  class_name : String
  confidence : Rat
  bbox : BBox

/-- The Detection constructor with its __post_init__ validation. -/
def Detection.make (tracker_id : Int) (class_name : String) (confidence : Rat)
    (bbox : BBox) : Except String Detection :=
  if confidence < 0 ∨ 1 < confidence then
    .error "Confidence must be in the unit interval"
  else if tracker_id < 0 then
    .error "Tracker ID must be nonnegative"
  else
    .ok ⟨tracker_id, class_name, confidence, bbox⟩

/-- Detection.to_dict (schemas/detection.py): the class_name field is
serialized under the key "class". -/
def Detection.to_dict (d : Detection) : PyVal :=
  .pdict [("tracker_id", .pint d.tracker_id), ("class", .pstr d.class_name),
          ("confidence", .pfloat d.confidence), ("bbox", d.bbox.to_dict)]

/-- Detection.from_dict (schemas/detection.py). -/
def Detection.from_dict (v : PyVal) : Except String Detection :=
  match v with
  | .pdict kvs => do
    let tv ← reqKey kvs "tracker_id"
    let cv ← reqKey kvs "class"
    let fv ← reqKey kvs "confidence"
    let bv ← reqKey kvs "bbox"
    let tid ← pyToInt tv
    let cname ← pyToStr cv
    let conf ← pyToFloat fv
    let bbox ← BBox.from_dict bv
    Detection.make tid cname conf bbox
  | _ => .error "Invalid Detection data"

/-- The Detection __post_init__ invariant, plus that of its bbox. -/
def Detection.wf (d : Detection) : Prop :=
  0 ≤ d.confidence ∧ d.confidence ≤ 1 ∧ 0 ≤ d.tracker_id ∧ d.bbox.wf

/-- DetectionMessage (schemas/detection.py). -/
structure DetectionMessage where
  schema_version : String
  timestamp : Timestamp
  frame_id : Int
  source_id : Int
  detections : List Detection

/-- The DetectionMessage constructor with its __post_init__ validation. -/
def DetectionMessage.make (schema_version : String) (timestamp : Timestamp)
    (frame_id source_id : Int) (detections : List Detection) :
    Except String DetectionMessage :=
  if frame_id < 0 then .error "Frame ID must be nonnegative"
  else if source_id < 0 then .error "Source ID must be nonnegative"
  else .ok ⟨schema_version, timestamp, frame_id, source_id, detections⟩

/-- DetectionMessage.to_dict (schemas/detection.py): the timestamp
serializes to its bare string (Timestamp.to_dict). -/
def DetectionMessage.to_dict (m : DetectionMessage) : PyVal :=
  .pdict [("schema_version", .pstr m.schema_version),
          ("timestamp", .pstr m.timestamp.value),
          ("frame_id", .pint m.frame_id),
          ("source_id", .pint m.source_id),
          ("detections", .plist (m.detections.map Detection.to_dict))]

/-- DetectionMessage.from_dict (schemas/detection.py): the timestamp is
rebuilt from the raw value (only a string is representable in the typed
field); detections defaults to [] when the key is absent. -/
def DetectionMessage.from_dict (v : PyVal) : Except String DetectionMessage :=
  match v with
  | .pdict kvs => do
    let sv ← reqKey kvs "schema_version"
    let tsv ← reqKey kvs "timestamp"
    let fv ← reqKey kvs "frame_id"
    let siv ← reqKey kvs "source_id"
    let sver ← pyToStr sv
    let tss ← pyToStr tsv
    let fid ← pyToInt fv
    let sid ← pyToInt siv
    let dets ←
      match dgetD kvs "detections" (.plist []) with
      | .plist xs => parseList Detection.from_dict xs
      | _ => .error "Invalid DetectionMessage data: detections not a list"
    DetectionMessage.make sver ⟨tss⟩ fid sid dets
  | _ => .error "Invalid DetectionMessage data"

/-- The DetectionMessage __post_init__ invariant, plus that of each
detection. -/
def DetectionMessage.wf (m : DetectionMessage) : Prop :=
  0 ≤ m.frame_id ∧ 0 ≤ m.source_id ∧ ∀ d ∈ m.detections, d.wf

/-- ZoneType (schemas/zone_event.py). -/
inductive ZoneType where
  | polygon
  | line

/-- The wire value of a ZoneType. -/
def ZoneType.value : ZoneType → String
  | .polygon => "polygon"
  | .line => "line"

/-- ZoneType(s): enum construction, ValueError on an unknown value. -/
def ZoneType.ofValue : PyVal → Except String ZoneType
  | .pstr "polygon" => .ok .polygon
  | .pstr "line" => .ok .line
  | _ => .error "Invalid ZoneType value"

/-- EventType (schemas/zone_event.py). -/
inductive EventType where
  | inside
  | crossing

/-- The wire value of an EventType. -/
def EventType.value : EventType → String
  | .inside => "inside"
  | .crossing => "crossing"

/-- EventType(s): enum construction, ValueError on an unknown value. -/
def EventType.ofValue : PyVal → Except String EventType
  | .pstr "inside" => .ok .inside
  | .pstr "crossing" => .ok .crossing
  | _ => .error "Invalid EventType value"

/-- CrossingDirection (schemas/zone_event.py). -/
inductive CrossingDirection where
  | dirIn
  | dirOut

/-- The wire value of a CrossingDirection ("in" / "out"). -/
def CrossingDirection.value : CrossingDirection → String
  | .dirIn => "in"
  | .dirOut => "out"

/-- CrossingDirection(s): enum construction, ValueError on unknown value. -/
def CrossingDirection.ofValue : PyVal → Except String CrossingDirection
  | .pstr "in" => .ok .dirIn
  | .pstr "out" => .ok .dirOut
  | _ => .error "Invalid CrossingDirection value"

/-- The wire ZoneStats (schemas/zone_event.py, distinct from the analytics
ZoneStats): three Optional[int] fields, no validation. -/
structure ZoneStats where
  total_in : Option Int
  total_out : Option Int
  current_count : Option Int

/-- Serialize an Optional[int]. -/
def optInt : Option Int → PyVal
  | none => .pnone
  | some n => .pint n

/-- ZoneStats.to_dict: asdict(self). -/
def ZoneStats.to_dict (s : ZoneStats) : PyVal :=
  .pdict [("total_in", optInt s.total_in), ("total_out", optInt s.total_out),
          ("current_count", optInt s.current_count)]

/-- ZoneStats.from_dict (schemas/zone_event.py): data.get each key with
default None, values stored without conversion. -/
def ZoneStats.from_dict (v : PyVal) : Except String ZoneStats :=
  match v with
  | .pdict kvs => do
    let ti ← pyOptInt (dgetD kvs "total_in" .pnone)
    let to2 ← pyOptInt (dgetD kvs "total_out" .pnone)
    let cc ← pyOptInt (dgetD kvs "current_count" .pnone)
    .ok ⟨ti, to2, cc⟩
  | _ => .error "Invalid ZoneStats data"

/-- ZoneEvent (schemas/zone_event.py). -/
structure ZoneEvent where
  zone_id : String
  zone_type : ZoneType
  event_type : EventType
  stats : ZoneStats
  triggered_by : List Int
  crossing_direction : Option CrossingDirection

/-- The ZoneEvent constructor with its __post_init__ validation: a line
zone must carry a crossing direction. -/
def ZoneEvent.make (zone_id : String) (zone_type : ZoneType)
    (event_type : EventType) (stats : ZoneStats) (triggered_by : List Int)
    (crossing_direction : Option CrossingDirection) : Except String ZoneEvent :=
  match zone_type, crossing_direction with
  | .line, none => .error "Line zones must have crossing direction set"
  | zt, cd => .ok ⟨zone_id, zt, event_type, stats, triggered_by, cd⟩

/-- ZoneEvent.to_dict (schemas/zone_event.py): base keys, plus the
crossing_direction key only when the field is set. -/
def ZoneEvent.to_dict (e : ZoneEvent) : PyVal :=
  let base := [("zone_id", PyVal.pstr e.zone_id),
               ("zone_type", PyVal.pstr e.zone_type.value),
               ("event_type", PyVal.pstr e.event_type.value),
               ("stats", e.stats.to_dict),
               ("triggered_by", PyVal.plist (e.triggered_by.map PyVal.pint))]
  match e.crossing_direction with
  | some d => .pdict (base ++ [("crossing_direction", PyVal.pstr d.value)])
  | none => .pdict base

/-- ZoneEvent.from_dict (schemas/zone_event.py): the crossing direction is
read only when its key is present; triggered_by defaults to [] (elements
are stored unconverted in Python; ints are what the typed field holds). -/
def ZoneEvent.from_dict (v : PyVal) : Except String ZoneEvent :=
  match v with
  | .pdict kvs => do
    let cd ←
      if containsKey kvs "crossing_direction" then do
        let dv ← reqKey kvs "crossing_direction"
        let d ← CrossingDirection.ofValue dv
        pure (some d)
      else
        pure (none : Option CrossingDirection)
    let zv ← reqKey kvs "zone_id"
    let ztv ← reqKey kvs "zone_type"
    let etv ← reqKey kvs "event_type"
    let stv ← reqKey kvs "stats"
    let zid ← pyToStr zv
    let zt ← ZoneType.ofValue ztv
    let et ← EventType.ofValue etv
    let stats ← ZoneStats.from_dict stv
    let tb ←
      match dgetD kvs "triggered_by" (.plist []) with
      | .plist xs => parseList pyToInt xs
      | _ => .error "Invalid ZoneEvent data: triggered_by not a list"
    ZoneEvent.make zid zt et stats tb cd
  | _ => .error "Invalid ZoneEvent data"

/-- The ZoneEvent __post_init__ invariant. -/
def ZoneEvent.wf (e : ZoneEvent) : Prop :=
  e.zone_type = .line → e.crossing_direction ≠ none

/-- ZoneEventMessage (schemas/zone_event.py). -/
structure ZoneEventMessage where
  schema_version : String
  timestamp : Timestamp
  frame_id : Int
  source_id : Int
  zones : List ZoneEvent

/-- The ZoneEventMessage constructor with its __post_init__ validation. -/
def ZoneEventMessage.make (schema_version : String) (timestamp : Timestamp)
    (frame_id source_id : Int) (zones : List ZoneEvent) :
    Except String ZoneEventMessage :=
  if frame_id < 0 then .error "Frame ID must be nonnegative"
  else if source_id < 0 then .error "Source ID must be nonnegative"
  else .ok ⟨schema_version, timestamp, frame_id, source_id, zones⟩

/-- ZoneEventMessage.to_dict (schemas/zone_event.py). -/
def ZoneEventMessage.to_dict (m : ZoneEventMessage) : PyVal :=
  .pdict [("schema_version", .pstr m.schema_version),
          ("timestamp", .pstr m.timestamp.value),
          ("frame_id", .pint m.frame_id),
          ("source_id", .pint m.source_id),
          ("zones", .plist (m.zones.map ZoneEvent.to_dict))]

/-- ZoneEventMessage.from_dict (schemas/zone_event.py). -/
def ZoneEventMessage.from_dict (v : PyVal) : Except String ZoneEventMessage :=
  match v with
  | .pdict kvs => do
    let sv ← reqKey kvs "schema_version"
    let tsv ← reqKey kvs "timestamp"
    let fv ← reqKey kvs "frame_id"
    let siv ← reqKey kvs "source_id"
    let sver ← pyToStr sv
    let tss ← pyToStr tsv
    let fid ← pyToInt fv
    let sid ← pyToInt siv
    let zones ←
      match dgetD kvs "zones" (.plist []) with
      | .plist xs => parseList ZoneEvent.from_dict xs
      | _ => .error "Invalid ZoneEventMessage data: zones not a list"
    ZoneEventMessage.make sver ⟨tss⟩ fid sid zones
  | _ => .error "Invalid ZoneEventMessage data"

/-- The ZoneEventMessage __post_init__ invariant, plus that of each zone
event. -/
def ZoneEventMessage.wf (m : ZoneEventMessage) : Prop :=
  0 ≤ m.frame_id ∧ 0 ≤ m.source_id ∧ ∀ e ∈ m.zones, e.wf

end Mqtt

namespace Zone

variable {R : Type} [LinearOrderedRing R]

theorem crossInB_true_iff (zone : LineZone R) (st : StateMap) (t : Int) (p : R × R) :
    crossInB zone st t p = true ↔
      ∃ prev, st t = some prev ∧ prev ≠ zone.get_side p ∧ zone.get_side p = 1 := by
  cases h : st t with
  | none => simp [crossInB, h]
  | some prev =>
    simp only [crossInB, h, Bool.and_eq_true, decide_eq_true_eq]
    constructor
    · rintro ⟨⟨h1, _⟩, h3⟩
      exact ⟨prev, rfl, h1, h3⟩
    · rintro ⟨prev2, hp, h1, h3⟩
      obtain rfl : prev2 = prev := by injection hp.symm
      refine ⟨⟨h1, ?_⟩, h3⟩
      rw [h3]; decide

theorem crossOutB_true_iff (zone : LineZone R) (st : StateMap) (t : Int) (p : R × R) :
    crossOutB zone st t p = true ↔
      ∃ prev, st t = some prev ∧ prev ≠ zone.get_side p ∧ zone.get_side p = -1 := by
  cases h : st t with
  | none => simp [crossOutB, h]
  | some prev =>
    simp only [crossOutB, h, Bool.and_eq_true, decide_eq_true_eq]
    constructor
    · rintro ⟨⟨h1, _⟩, h3⟩
      exact ⟨prev, rfl, h1, h3⟩
    · rintro ⟨prev2, hp, h1, h3⟩
      obtain rfl : prev2 = prev := by injection hp.symm
      refine ⟨⟨h1, ?_⟩, h3⟩
      rw [h3]; decide

theorem crossInB_of_side_zero (zone : LineZone R) (st : StateMap) (t : Int)
    (p : R × R) (h0 : zone.get_side p = 0) : crossInB zone st t p = false := by
  cases h : st t with
  | none => simp [crossInB, h]
  | some prev => simp [crossInB, h, h0]

theorem crossOutB_of_side_zero (zone : LineZone R) (st : StateMap) (t : Int)
    (p : R × R) (h0 : zone.get_side p = 0) : crossOutB zone st t p = false := by
  cases h : st t with
  | none => simp [crossOutB, h]
  | some prev => simp [crossOutB, h, h0]

theorem crossInB_of_unseen (zone : LineZone R) (st : StateMap) (t : Int)
    (p : R × R) (h : st t = none) : crossInB zone st t p = false := by
  simp [crossInB, h]

theorem crossOutB_of_unseen (zone : LineZone R) (st : StateMap) (t : Int)
    (p : R × R) (h : st t = none) : crossOutB zone st t p = false := by
  simp [crossOutB, h]

/-- Characterization of a successful detect_line_crossing on a batch whose
tracker id array matches the batch length: the two masks are pointwise the
crossInB / crossOutB conditions over the zipped batch, and the new state is
the final state of the loop. -/
theorem detect_line_crossing_eq (zone : LineZone R) (dets : Detections R)
    (st : StateMap) (tids : List Int) (hT : dets.tracker_id = some tids)
    (hL : tids.length = dets.anchors.length) :
    detect_line_crossing zone dets st = .ok
      ((tids.zip dets.anchors).map (fun q => crossInB zone st q.1 q.2),
       (tids.zip dets.anchors).map (fun q => crossOutB zone st q.1 q.2),
       (lineLoop zone st (tids.zip dets.anchors) st).2.2) := by
  unfold detect_line_crossing
  rw [hT]
  by_cases h0 : dets.anchors.length = 0
  · have ha : dets.anchors = [] := List.length_eq_zero.mp h0
    have ht : tids = [] := List.length_eq_zero.mp (by rw [hL, h0])
    simp [h0, ha, ht, lineLoop]
  · have hzip : (tids.zip dets.anchors).length = dets.anchors.length := by
      rw [List.length_zip, hL, min_self]
    simp only [h0, if_false]
    rw [lineLoop_fst, lineLoop_snd, hzip, Nat.sub_self]
    simp

end Zone

/-- C1: for every line zone, every tracked detection batch, and every prior
side-state map, detect_line_crossing marks detection i as crossed_in exactly
when its tracker id is a key of the prior state, the remembered side differs
from the current side of its anchor, and the current side is +1; crossed_out
exactly when those conditions hold with current side -1; and no crossing is
recorded when the current side is 0 or when the tracker id is absent from
the prior state. -/
theorem C1_detect_line_crossing_marks {R : Type} [LinearOrderedRing R]
    (zone : Zone.LineZone R) (dets : Zone.Detections R) (st : Zone.StateMap)
    (tids : List Int) (crossed_in crossed_out : List Bool)
    (new_state : Zone.StateMap)
    (hT : dets.tracker_id = some tids)
    (hL : tids.length = dets.anchors.length)
    (hres : Zone.detect_line_crossing zone dets st =
      .ok (crossed_in, crossed_out, new_state)) :
    ∀ (i : Nat) (t : Int) (p : R × R), (tids.zip dets.anchors)[i]? = some (t, p) →
      ((crossed_in[i]? = some true ↔
        ∃ prev, st t = some prev ∧ prev ≠ zone.get_side p ∧ zone.get_side p = 1) ∧
       (crossed_out[i]? = some true ↔
        ∃ prev, st t = some prev ∧ prev ≠ zone.get_side p ∧ zone.get_side p = -1)) ∧
      (zone.get_side p = 0 →
        crossed_in[i]? = some false ∧ crossed_out[i]? = some false) ∧
      (st t = none →
        crossed_in[i]? = some false ∧ crossed_out[i]? = some false) := by
  intro i t p hi
  have hkey := Zone.detect_line_crossing_eq zone dets st tids hT hL
  rw [hres] at hkey
  obtain ⟨hin, hout, _⟩ : crossed_in = _ ∧ crossed_out = _ ∧ new_state = _ := by
    injection hkey with h1
    injection h1 with h2 h3
    injection h3 with h4 h5
    exact ⟨h2, h4, h5⟩
  have hini : crossed_in[i]? = some (Zone.crossInB zone st t p) := by
    rw [hin, List.getElem?_map, hi]; rfl
  have houti : crossed_out[i]? = some (Zone.crossOutB zone st t p) := by
    rw [hout, List.getElem?_map, hi]; rfl
  refine ⟨⟨?_, ?_⟩, ?_, ?_⟩
  · rw [hini, ← Zone.crossInB_true_iff zone st t p]
    simp
  · rw [houti, ← Zone.crossOutB_true_iff zone st t p]
    simp
  · intro h0
    rw [hini, houti, Zone.crossInB_of_side_zero zone st t p h0,
      Zone.crossOutB_of_side_zero zone st t p h0]
    exact ⟨rfl, rfl⟩
  · intro hnone
    rw [hini, houti, Zone.crossInB_of_unseen zone st t p hnone,
      Zone.crossOutB_of_unseen zone st t p hnone]
    exact ⟨rfl, rfl⟩

/-- Concrete line zone used by witnesses: the segment from (0,0) to (10,0)
over the integers. -/
def zoneW : Zone.LineZone Int := ⟨(0, 0), (10, 0)⟩

/-- A single tracked detection at (5, 3) with tracker id 7. -/
def detsW : Zone.Detections Int := ⟨[(5, 3)], some [7], none⟩

/-- Prior state: tracker 7 was last seen on side -1. -/
def stW : Zone.StateMap := fun t => if t = 7 then some (-1) else none

namespace Zone

variable {R : Type} [LinearOrderedRing R]

/-- Number of crossings that a frame attributes to tracker id t: the number
of detection indices whose tracker id is t and whose crossed_in or
crossed_out entry is set. -/
def crossingsFor (tids : List Int) (crossed_in crossed_out : List Bool)
    (t : Int) : Nat :=
  ((tids.zip (crossed_in.zip crossed_out)).filter
    (fun q => decide (q.1 = t) && (q.2.1 || q.2.2))).length

theorem filter_zip_len_zero {β : Type} (t : Int) (f : β → Bool) :
    ∀ (tids : List Int) (bs : List β), t ∉ tids →
      ((tids.zip bs).filter (fun q => decide (q.1 = t) && f q.2)).length = 0 := by
  intro tids
  induction tids with
  | nil => intro bs _; simp
  | cons a rest ih =>
    intro bs hmem
    cases bs with
    | nil => simp
    | cons b bs2 =>
      have ha : ¬ (a = t) := fun h => hmem (h ▸ List.mem_cons_self a rest)
      have hr : t ∉ rest := fun h => hmem (List.mem_cons_of_mem a h)
      have hcond : (decide (a = t) && f b) = false := by simp [ha]
      simp only [List.zip_cons_cons, List.filter_cons, hcond,
        Bool.false_eq_true, if_false]
      exact ih bs2 hr

theorem filter_zip_len_le_one {β : Type} (t : Int) (f : β → Bool) :
    ∀ (tids : List Int) (bs : List β), tids.Nodup →
      ((tids.zip bs).filter (fun q => decide (q.1 = t) && f q.2)).length ≤ 1 := by
  intro tids
  induction tids with
  | nil => intro bs _; simp
  | cons a rest ih =>
    intro bs hnodup
    cases bs with
    | nil => simp
    | cons b bs2 =>
      have hrest : rest.Nodup := (List.nodup_cons.mp hnodup).2
      by_cases ha : a = t
      · have hnm : t ∉ rest := ha ▸ (List.nodup_cons.mp hnodup).1
        cases hfb : f b with
        | true =>
          have hcond : (decide (a = t) && f b) = true := by simp [ha, hfb]
          simp only [List.zip_cons_cons, List.filter_cons, hcond, if_true,
            List.length_cons]
          rw [filter_zip_len_zero t f rest bs2 hnm]
        | false =>
          have hcond : (decide (a = t) && f b) = false := by simp [hfb]
          simp only [List.zip_cons_cons, List.filter_cons, hcond,
            Bool.false_eq_true, if_false]
          exact ih bs2 hrest
      · have hcond : (decide (a = t) && f b) = false := by simp [ha]
        simp only [List.zip_cons_cons, List.filter_cons, hcond,
          Bool.false_eq_true, if_false]
        exact ih bs2 hrest

theorem lastSeenSide_of_not_mem (zone : LineZone R) :
    ∀ (pairs : List (Int × (R × R))) (t : Int),
      (∀ q ∈ pairs, q.1 ≠ t) → lastSeenSide zone pairs t = none := by
  intro pairs
  induction pairs with
  | nil => intro t _; rfl
  | cons q rest ih =>
    intro t hq
    obtain ⟨tid, p⟩ := q
    have h1 : tid ≠ t := hq (tid, p) (List.mem_cons_self _ _)
    have h2 := ih t (fun r hr => hq r (List.mem_cons_of_mem _ hr))
    simp [lastSeenSide, h2, h1]

end Zone

/-- C2 as stated is false on the code: when the same tracker id occurs twice
in one batch, the crossing test compares each occurrence against the
unmodified input state, so one frame can attribute two crossings to one
tracker id. Concretely, with prior side -1 for tracker 1 and a batch holding
tracker 1 twice on side +1, both crossed_in entries are set. -/
theorem C2_counterexample :
    (∃ ns, Zone.detect_line_crossing zoneW
      (⟨[(5, 3), (6, 4)], some [1, 1], none⟩ : Zone.Detections Int)
      (fun t => if t = 1 then some (-1) else none) =
      .ok ([true, true], [false, false], ns)) ∧
    ¬ (Zone.crossingsFor [1, 1] [true, true] [false, false] 1 ≤ 1) := by
  constructor
  · exact ⟨_, rfl⟩
  · decide

/-- C2 amended: when the batch's tracker ids are pairwise distinct, at most
one crossing per frame is attributed to any tracker id; and, with no
distinctness assumption, every recorded crossing implies the tracker id was
a key of the prior state, the remembered side differed from the current
side, and the current side is non-zero. (With duplicated tracker ids the
code can record one crossing per duplicate occurrence.) -/
theorem C2_at_most_one_crossing {R : Type} [LinearOrderedRing R]
    (zone : Zone.LineZone R) (dets : Zone.Detections R) (st : Zone.StateMap)
    (tids : List Int) (crossed_in crossed_out : List Bool)
    (new_state : Zone.StateMap)
    (hT : dets.tracker_id = some tids)
    (hL : tids.length = dets.anchors.length)
    (hres : Zone.detect_line_crossing zone dets st =
      .ok (crossed_in, crossed_out, new_state)) :
    (tids.Nodup → ∀ t, Zone.crossingsFor tids crossed_in crossed_out t ≤ 1) ∧
    (∀ (i : Nat) (t : Int) (p : R × R),
      (tids.zip dets.anchors)[i]? = some (t, p) →
      (crossed_in[i]? = some true →
        ∃ prev, st t = some prev ∧ prev ≠ zone.get_side p ∧ zone.get_side p ≠ 0) ∧
      (crossed_out[i]? = some true →
        ∃ prev, st t = some prev ∧ prev ≠ zone.get_side p ∧ zone.get_side p ≠ 0)) := by
  have hkey := Zone.detect_line_crossing_eq zone dets st tids hT hL
  rw [hres] at hkey
  obtain ⟨hin, hout, _⟩ : crossed_in = _ ∧ crossed_out = _ ∧ new_state = _ := by
    injection hkey with h1
    injection h1 with h2 h3
    injection h3 with h4 h5
    exact ⟨h2, h4, h5⟩
  constructor
  · intro hnodup t
    unfold Zone.crossingsFor
    exact Zone.filter_zip_len_le_one t (fun b => b.1 || b.2) tids
      (crossed_in.zip crossed_out) hnodup
  · intro i t p hi
    have hini : crossed_in[i]? = some (Zone.crossInB zone st t p) := by
      rw [hin, List.getElem?_map, hi]; rfl
    have houti : crossed_out[i]? = some (Zone.crossOutB zone st t p) := by
      rw [hout, List.getElem?_map, hi]; rfl
    constructor
    · intro htrue
      rw [hini] at htrue
      have hb : Zone.crossInB zone st t p = true := by injection htrue
      obtain ⟨prev, hp, hne, hcur⟩ := (Zone.crossInB_true_iff zone st t p).mp hb
      exact ⟨prev, hp, hne, by rw [hcur]; decide⟩
    · intro htrue
      rw [houti] at htrue
      have hb : Zone.crossOutB zone st t p = true := by injection htrue
      obtain ⟨prev, hp, hne, hcur⟩ := (Zone.crossOutB_true_iff zone st t p).mp hb
      exact ⟨prev, hp, hne, by rw [hcur]; decide⟩

theorem C2_witness :
    Zone.crossingsFor [7] [true] [false] 7 ≤ 1 ∧
    (∃ prev, stW 7 = some prev ∧ prev ≠ zoneW.get_side ((5 : Int), (3 : Int)) ∧
      zoneW.get_side ((5 : Int), (3 : Int)) ≠ 0) := by
  have h := C2_at_most_one_crossing zoneW detsW stW [7] [true] [false]
    (Zone.stateInsert stW 7 (zoneW.get_side ((5 : Int), (3 : Int)))) rfl rfl rfl
  exact ⟨h.1 (by decide) 7, (h.2 0 7 ((5 : Int), (3 : Int)) rfl).1 rfl⟩

/-- New-state map produced by the witness batch: tracker 7 now on side +1. -/
def nsW : Zone.StateMap :=
  Zone.stateInsert stW 7 (zoneW.get_side ((5 : Int), (3 : Int)))

/-- C4: detect_line_crossing does not mutate the input state (the embedding
is functional and the code copies the dict before writing); the returned new
state maps every tracker id seen in the batch to its current side (the side
of its last occurrence), and every id absent from the batch keeps its prior
entry unchanged. -/
theorem C4_detect_line_crossing_state {R : Type} [LinearOrderedRing R]
    (zone : Zone.LineZone R) (dets : Zone.Detections R) (st : Zone.StateMap)
    (tids : List Int) (crossed_in crossed_out : List Bool)
    (new_state : Zone.StateMap)
    (hT : dets.tracker_id = some tids)
    (hL : tids.length = dets.anchors.length)
    (hres : Zone.detect_line_crossing zone dets st =
      .ok (crossed_in, crossed_out, new_state)) :
    (∀ t, new_state t =
      match Zone.lastSeenSide zone (tids.zip dets.anchors) t with
      | some s => some s
      | none => st t) ∧
    (∀ t, t ∉ tids → new_state t = st t) := by
  have hkey := Zone.detect_line_crossing_eq zone dets st tids hT hL
  rw [hres] at hkey
  obtain ⟨h2, h4, hns⟩ :
      crossed_in = _ ∧ crossed_out = _ ∧
        new_state = (Zone.lineLoop zone st (tids.zip dets.anchors) st).2.2 := by
    injection hkey with h1
    injection h1 with h2 h3
    injection h3 with h4 h5
    exact ⟨h2, h4, h5⟩
  constructor
  · intro t
    rw [hns, Zone.lineLoop_state]
  · intro t hmem
    have hnone : Zone.lastSeenSide zone (tids.zip dets.anchors) t = none := by
      refine Zone.lastSeenSide_of_not_mem zone _ t (fun q hq => ?_)
      intro hqt
      exact hmem (hqt ▸ (List.of_mem_zip hq).1)
    rw [hns, Zone.lineLoop_state, hnone]

theorem C4_witness : nsW 7 = some 1 ∧ nsW 3 = stW 3 := by
  have h := C4_detect_line_crossing_state zoneW detsW stW [7] [true] [false]
    nsW rfl rfl rfl
  exact ⟨(h.1 7).trans (by decide), h.2 3 (by decide)⟩

/-- C10: detect_line_crossing raises its missing-tracker-id ValueError
whenever the tracker_id field is absent (the check precedes the empty-batch
check, so it fires for an empty batch too); with tracker ids present and an
empty batch it returns two empty masks and the input state itself; and a
line-counter update with empty masks leaves the counter unchanged. -/
theorem C10_empty_batch_behavior {R : Type} [LinearOrderedRing R] :
    (∀ (zone : Zone.LineZone R) (dets : Zone.Detections R) (st : Zone.StateMap),
      dets.tracker_id = none →
      Zone.detect_line_crossing zone dets st =
        .error "Line crossing detection requires tracker_id") ∧
    (∀ (zone : Zone.LineZone R) (dets : Zone.Detections R) (st : Zone.StateMap)
       (tids : List Int),
      dets.tracker_id = some tids → dets.anchors = [] →
      Zone.detect_line_crossing zone dets st = .ok ([], [], st)) ∧
    (∀ (c : Zone.ZoneCounter) (dets : Zone.Detections Rat)
       (class_names : Option (Int → Option String)),
      c.update_line [] [] dets class_names = c) := by
  refine ⟨?_, ?_, ?_⟩
  · intro zone dets st h
    unfold Zone.detect_line_crossing
    rw [h]
  · intro zone dets st tids hT ha
    unfold Zone.detect_line_crossing
    rw [hT]
    simp [ha]
  · intro c dets class_names
    cases c
    cases hd : dets.class_id <;> simp [Zone.ZoneCounter.update_line, hd]

theorem C10_witness :
    Zone.detect_line_crossing zoneW
      (⟨[], none, none⟩ : Zone.Detections Int) stW =
      .error "Line crossing detection requires tracker_id" ∧
    Zone.detect_line_crossing zoneW
      (⟨[], some [], none⟩ : Zone.Detections Int) stW = .ok ([], [], stW) ∧
    (Zone.ZoneCounter.init "z").update_line [] [] Proc.emptyBatch none =
      Zone.ZoneCounter.init "z" := by
  refine ⟨?_, ?_, ?_⟩
  · exact (@C10_empty_batch_behavior Int _).1 zoneW ⟨[], none, none⟩ stW rfl
  · exact (@C10_empty_batch_behavior Int _).2.1 zoneW ⟨[], some [], none⟩ stW []
      rfl rfl
  · exact (@C10_empty_batch_behavior Int _).2.2 (Zone.ZoneCounter.init "z")
      Proc.emptyBatch none

theorem pyTrunc_intCast (n : Int) : Zone.pyTrunc ((n : Int) : Rat) = n := by
  unfold Zone.pyTrunc
  rw [Rat.intCast_num, Rat.intCast_den]
  simp [Int.tdiv_one]

/-- C3: contains_point integer-truncates the coordinates (the query at any
point equals the query at its truncation); any point whose truncation falls
outside the frame bounds yields false - in particular every integer point
outside the frame; and at every in-bounds integer point the result is the
rasterized mask bit, so a set mask bit yields true. -/
theorem C3_contains_point_spec :
    (∀ (z : Zone.PolygonZone) (p : Rat × Rat),
      z.contains_point p =
        z.contains_point (((Zone.pyTrunc p.1 : Int) : Rat),
          ((Zone.pyTrunc p.2 : Int) : Rat))) ∧
    (∀ (z : Zone.PolygonZone) (x y : Int),
      ¬ (0 ≤ x ∧ x < z.frame_resolution_wh.1 ∧
         0 ≤ y ∧ y < z.frame_resolution_wh.2) →
      z.contains_point ((x : Rat), (y : Rat)) = false) ∧
    (∀ (z : Zone.PolygonZone) (x y : Int),
      (0 ≤ x ∧ x < z.frame_resolution_wh.1 ∧
       0 ≤ y ∧ y < z.frame_resolution_wh.2) →
      z.contains_point ((x : Rat), (y : Rat)) = z.mask y x) := by
  refine ⟨?_, ?_, ?_⟩
  · intro z p
    simp [Zone.PolygonZone.contains_point, pyTrunc_intCast]
  · intro z x y h
    simp only [Zone.PolygonZone.contains_point, pyTrunc_intCast]
    rw [if_neg h]
  · intro z x y h
    simp only [Zone.PolygonZone.contains_point, pyTrunc_intCast]
    rw [if_pos h]

/-- Concrete polygon zone for the C3 witness: 10 x 10 frame, mask set only
at pixel (x, y) = (2, 3). -/
def zPC : Zone.PolygonZone :=
  ⟨[(0, 0), (9, 0), (9, 9), (0, 9)], (10, 10),
   fun y x => decide (x = 2 ∧ y = 3)⟩

theorem C3_witness :
    zPC.contains_point ((((-1) : Int) : Rat), ((5 : Int) : Rat)) = false ∧
    zPC.contains_point (((2 : Int) : Rat), ((3 : Int) : Rat)) = zPC.mask 3 2 ∧
    zPC.mask 3 2 = true := by
  refine ⟨?_, ?_, by decide⟩
  · exact C3_contains_point_spec.2.1 zPC (-1) 5 (by decide)
  · exact C3_contains_point_spec.2.2 zPC 2 3 (by decide)

namespace Proc

theorem Registry.lookup_replace (reg : Registry) (key : String)
    (mz2 : ManagedZone) :
    ∀ mz, reg.lookup key = some mz →
      (reg.replace key mz2).lookup key = some mz2 := by
  induction reg with
  | nil => intro mz h; exact absurd h (by simp [Registry.lookup])
  | cons kv rest ih =>
    intro mz h
    obtain ⟨k, v⟩ := kv
    by_cases hk : k = key
    · subst hk
      have hstep : Registry.replace ((k, v) :: rest) k mz2 =
          (k, mz2) :: Registry.replace rest k mz2 := by
        simp [Registry.replace]
      rw [hstep]
      simp [Registry.lookup]
    · simp only [Registry.lookup, hk, if_false] at h
      simp only [Registry.replace, List.map_cons, hk, if_false]
      simp only [Registry.lookup, hk, if_false]
      exact ih mz h

end Proc

/-- C5: update_zone on a present id with a same-kind shape replaces the
entry with the new geometry, a freshly constructed counter and tracker, and
the old enabled flag; an absent id fails with KeyError; a kind change fails
with ValueError (the registry value is returned unmodified only on the ok
path, so the entry is untouched on failure); and evaluating the freshly
updated zone against an empty tracked batch yields all-zero statistics. -/
theorem C5_update_zone_spec :
    (∀ (reg : Proc.Registry) (zone_id : String) (mz : Proc.ManagedZone)
       (z : Proc.ZoneGeom),
      reg.lookup zone_id = some mz → Proc.ZoneGeom.sameKind mz.zone z →
      Proc.Registry.update_zone reg zone_id z =
        .ok (reg.replace zone_id
          ⟨zone_id, z, Zone.ZoneCounter.init zone_id, Proc.freshTracker z,
           mz.enabled⟩) ∧
      (reg.replace zone_id
          ⟨zone_id, z, Zone.ZoneCounter.init zone_id, Proc.freshTracker z,
           mz.enabled⟩).lookup zone_id =
        some ⟨zone_id, z, Zone.ZoneCounter.init zone_id, Proc.freshTracker z,
           mz.enabled⟩ ∧
      (∃ res mz2,
        Proc.triggerZone
          ⟨zone_id, z, Zone.ZoneCounter.init zone_id, Proc.freshTracker z,
           mz.enabled⟩ Proc.emptyBatch none = .ok (res, mz2) ∧
        res.stats = ⟨zone_id, 0, 0, 0, fun _ => 0⟩)) ∧
    (∀ (reg : Proc.Registry) (zone_id : String) (z : Proc.ZoneGeom),
      reg.lookup zone_id = none →
      Proc.Registry.update_zone reg zone_id z = .error "Zone not found") ∧
    (∀ (reg : Proc.Registry) (zone_id : String) (mz : Proc.ManagedZone)
       (z : Proc.ZoneGeom),
      reg.lookup zone_id = some mz → ¬ Proc.ZoneGeom.sameKind mz.zone z →
      Proc.Registry.update_zone reg zone_id z =
        .error "Cannot change zone type") := by
  refine ⟨?_, ?_, ?_⟩
  · intro reg zone_id mz z hfound hkind
    refine ⟨?_, Proc.Registry.lookup_replace reg zone_id _ mz hfound, ?_⟩
    · simp [Proc.Registry.update_zone, hfound, hkind]
    · cases z with
      | poly zp => exact ⟨_, _, rfl, rfl⟩
      | line zl => exact ⟨_, _, rfl, rfl⟩
  · intro reg zone_id z habsent
    simp [Proc.Registry.update_zone, habsent]
  · intro reg zone_id mz z hfound hkind
    simp [Proc.Registry.update_zone, hfound, hkind]

/-- Concrete registry for the C5 witness: one disabled polygon zone. -/
def polyW : Zone.PolygonZone :=
  ⟨[(0, 0), (4, 0), (4, 4)], (10, 10), fun _ _ => false⟩

/-- Replacement polygon of the same kind. -/
def polyW2 : Zone.PolygonZone :=
  ⟨[(0, 0), (5, 0), (5, 5)], (10, 10), fun _ _ => true⟩

/-- A line zone of the other kind, for the type-mismatch case. -/
def lineWq : Zone.LineZone Rat := ⟨(0, 0), (1, 0)⟩

/-- The managed zone stored under id z1, disabled, with some accumulated
counter state. -/
def mzW : Proc.ManagedZone :=
  ⟨"z1", .poly polyW, ⟨"z1", 4, 2, 1, fun _ => 9⟩, none, false⟩

def regW : Proc.Registry := [("z1", mzW)]

theorem C5_witness :
    Proc.Registry.update_zone regW "z1" (.poly polyW2) =
      .ok (regW.replace "z1"
        ⟨"z1", .poly polyW2, Zone.ZoneCounter.init "z1",
         Proc.freshTracker (.poly polyW2), mzW.enabled⟩) ∧
    (∃ res mz2,
      Proc.triggerZone
        ⟨"z1", .poly polyW2, Zone.ZoneCounter.init "z1",
         Proc.freshTracker (.poly polyW2), mzW.enabled⟩
        Proc.emptyBatch none = .ok (res, mz2) ∧
      res.stats = ⟨"z1", 0, 0, 0, fun _ => 0⟩) ∧
    Proc.Registry.update_zone regW "zX" (.poly polyW2) =
      .error "Zone not found" ∧
    Proc.Registry.update_zone regW "z1" (.line lineWq) =
      .error "Cannot change zone type" := by
  have h1 := C5_update_zone_spec.1 regW "z1" mzW (.poly polyW2) rfl trivial
  refine ⟨h1.1, h1.2.2, ?_, ?_⟩
  · exact C5_update_zone_spec.2.1 regW "zX" (.poly polyW2) rfl
  · exact C5_update_zone_spec.2.2 regW "z1" mzW (.line lineWq) rfl
      (fun hk => hk)

namespace Service

theorem onPredictionEnqueue_room {M : Type} (q : Queue M) (d z : M)
    (h : q.length + 1 < publishQueueMaxsize) :
    onPredictionEnqueue q d z =
      ((EnvelopeKind.zone_event, z) :: (EnvelopeKind.detection, d) :: q, 0) := by
  have h0 : q.length < 512 := by
    have := h; unfold publishQueueMaxsize at this; omega
  have h1 : q.length + 1 < 512 := by
    have := h; unfold publishQueueMaxsize at this; omega
  simp [onPredictionEnqueue, putNowait, publishQueueMaxsize, h0, h1]

theorem onPredictionEnqueue_one_slot {M : Type} (q : Queue M) (d z : M)
    (h : q.length + 1 = publishQueueMaxsize) :
    onPredictionEnqueue q d z = ((EnvelopeKind.detection, d) :: q, 1) := by
  have h0 : q.length < 512 := by
    have := h; unfold publishQueueMaxsize at this; omega
  have h1 : ¬ (q.length + 1 < 512) := by
    have := h; unfold publishQueueMaxsize at this; omega
  simp [onPredictionEnqueue, putNowait, publishQueueMaxsize, h0, h1]

theorem onPredictionEnqueue_full {M : Type} (q : Queue M) (d z : M)
    (h : publishQueueMaxsize ≤ q.length) :
    onPredictionEnqueue q d z = (q, 1) := by
  have h0 : ¬ (q.length < 512) := by
    have := h; unfold publishQueueMaxsize at this; omega
  simp [onPredictionEnqueue, putNowait, publishQueueMaxsize, h0]

theorem putAll_spec {M : Type} :
    ∀ (msgs : List (EnvelopeKind × M)) (q : Queue M),
      q.length ≤ 512 →
      (putAll q msgs).1.length = min (q.length + msgs.length) 512 ∧
      (putAll q msgs).2 =
          q.length + msgs.length - min (q.length + msgs.length) 512 := by
  intro msgs
  induction msgs with
  | nil =>
    intro q hq
    simp [putAll]
    omega
  | cons m rest ih =>
    intro q hq
    by_cases hlt : q.length < 512
    · have hcond : q.length < publishQueueMaxsize := by
        unfold publishQueueMaxsize; omega
      have hstep : putAll q (m :: rest) = putAll (m :: q) rest := by
        simp [putAll, putNowait, hcond]
      have h2 := ih (m :: q) (by simp only [List.length_cons]; omega)
      rw [hstep, h2.1, h2.2]
      simp only [List.length_cons]
      omega
    · have hcond : ¬ (q.length < publishQueueMaxsize) := by
        unfold publishQueueMaxsize; omega
      have hstep1 : (putAll q (m :: rest)).1 = (putAll q rest).1 := by
        simp [putAll, putNowait, hcond]
      have hstep2 : (putAll q (m :: rest)).2 = (putAll q rest).2 + 1 := by
        simp [putAll, putNowait, hcond]
      have h2 := ih q hq
      rw [hstep1, hstep2, h2.1, h2.2]
      simp only [List.length_cons]
      omega

theorem runFrames_spec {M : Type} (det zev : M) :
    ∀ n : Nat, (runFrames det zev n).1.length = min (2 * n) 512 ∧
      (runFrames det zev n).2 = n - 256 := by
  intro n
  induction n with
  | zero => simp [runFrames]
  | succ n ih =>
    obtain ⟨ihlen, ihw⟩ := ih
    by_cases h : 2 * n < 512
    · have hr : (runFrames det zev n).1.length + 1 < publishQueueMaxsize := by
        rw [ihlen]; unfold publishQueueMaxsize; omega
      simp only [runFrames]
      rw [onPredictionEnqueue_room _ det zev hr]
      simp only [List.length_cons]
      rw [ihlen, ihw]
      constructor <;> omega
    · have hr : publishQueueMaxsize ≤ (runFrames det zev n).1.length := by
        rw [ihlen]; unfold publishQueueMaxsize; omega
      simp only [runFrames]
      rw [onPredictionEnqueue_full _ det zev hr]
      rw [ihlen, ihw]
      constructor <;> omega

end Service

/-- C6 as stated is false on the code: there is no dropped-count. The only
per-drop accounting is the single log warning emitted by the except clause
of on_prediction, and an overflow on the first (detection) put also skips
the second put, so one warning can cover two dropped messages. Concretely,
257 dispatch calls against the empty 512-slot queue attempt 514 messages:
512 are retained and 2 are dropped, but only 1 warning is counted. -/
theorem C6_counterexample :
    (Service.runFrames (0 : Nat) 1 257).1.length = 512 ∧
    (Service.runFrames (0 : Nat) 1 257).2 = 1 ∧
    2 * 257 - (Service.runFrames (0 : Nat) 1 257).1.length = 2 ∧
    ¬ ((Service.runFrames (0 : Nat) 1 257).2 =
       2 * 257 - (Service.runFrames (0 : Nat) 1 257).1.length) := by
  obtain ⟨h1, h2⟩ := Service.runFrames_spec (0 : Nat) 1 257
  have e1 : (Service.runFrames (0 : Nat) 1 257).1.length = 512 := by
    rw [h1]; omega
  have e2 : (Service.runFrames (0 : Nat) 1 257).2 = 1 := by
    rw [h2]
  rw [e1, e2]
  refine ⟨rfl, rfl, rfl, by decide⟩

/-- C6 amended: the publish queue has capacity exactly 512 (hence at least
512); for n > C raw put attempts performed while the publisher worker is
stopped, exactly C items are retained and n - C messages are dropped; the
drops are not individually counted - the only accounting is one log warning
per overflowing dispatch call, and a dispatch call that hits a full queue
drops both of its messages under a single warning. -/
theorem C6_queue_overflow_spec (M : Type) :
    Service.publishQueueMaxsize = 512 ∧
    (∀ msgs : List (Service.EnvelopeKind × M), 512 < msgs.length →
      (Service.putAll ([] : Service.Queue M) msgs).1.length = 512 ∧
      (Service.putAll ([] : Service.Queue M) msgs).2 = msgs.length - 512) ∧
    (∀ (q : Service.Queue M) (d z : M), 512 ≤ q.length →
      Service.onPredictionEnqueue q d z = (q, 1)) := by
  refine ⟨rfl, ?_, ?_⟩
  · intro msgs hn
    have h := Service.putAll_spec msgs ([] : Service.Queue M) (by simp)
    have hmin : min ((([] : Service.Queue M)).length + msgs.length) 512 = 512 := by
      simp only [List.length_nil, Nat.zero_add]
      omega
    rw [hmin] at h
    obtain ⟨ha, hb⟩ := h
    simp only [List.length_nil, Nat.zero_add] at ha hb
    exact ⟨ha, hb⟩
  · intro q d z hq
    exact Service.onPredictionEnqueue_full q d z
      (by unfold Service.publishQueueMaxsize; omega)

theorem C6_witness :
    (Service.putAll ([] : Service.Queue Nat)
      (List.replicate 513 (Service.EnvelopeKind.detection, 0))).1.length = 512 ∧
    (Service.putAll ([] : Service.Queue Nat)
      (List.replicate 513 (Service.EnvelopeKind.detection, 0))).2 = 1 ∧
    Service.onPredictionEnqueue
      (List.replicate 512 (Service.EnvelopeKind.zone_event, (0 : Nat))) 1 2 =
      (List.replicate 512 (Service.EnvelopeKind.zone_event, 0), 1) := by
  have h := (C6_queue_overflow_spec Nat).2.1
    (List.replicate 513 (Service.EnvelopeKind.detection, 0))
    (by rw [List.length_replicate]; omega)
  refine ⟨h.1, ?_, ?_⟩
  · rw [h.2, List.length_replicate]
  · exact (C6_queue_overflow_spec Nat).2.2 _ 1 2
      (by rw [List.length_replicate])

/-- C9: the dispatch callback enqueues the frame's detection message first
and its zone-event message second, with two separate non-blocking puts;
when the queue has exactly one free slot, the detection message is enqueued
and only the zone-event message of that frame is dropped, so a detection
envelope can reach the bus without its matching zone-event envelope. -/
theorem C9_detection_enqueued_zone_event_dropped {M : Type}
    (q : Service.Queue M) (detection_msg zone_event_msg : M)
    (h : q.length = 511) :
    Service.onPredictionEnqueue q detection_msg zone_event_msg =
      ((Service.EnvelopeKind.detection, detection_msg) :: q, 1) :=
  Service.onPredictionEnqueue_one_slot q detection_msg zone_event_msg
    (by rw [h]; rfl)

theorem C9_witness :
    Service.onPredictionEnqueue
      (List.replicate 511 (Service.EnvelopeKind.zone_event, (0 : Nat))) 1 2 =
      ((Service.EnvelopeKind.detection, 1) ::
        List.replicate 511 (Service.EnvelopeKind.zone_event, 0), 1) :=
  C9_detection_enqueued_zone_event_dropped _ 1 2
    (by rw [List.length_replicate])

/-- C7 as stated is false on the code: _on_message only logs. On an unknown
command it logs the available-commands list but publishes nothing to the
status topic, and on a handler exception it logs the error but publishes no
command_failed status. Concretely, an unregistered noop command and a
raising boom handler both leave the published-status list empty. -/
theorem C7_counterexample :
    (Control.onCommand (⟨[]⟩ : Control.CommandRegistry Nat) "noop" 0).published
      = [] ∧
    (Control.onCommand (⟨[]⟩ : Control.CommandRegistry Nat) "noop"
      0).handlerInvoked = false ∧
    (Control.onCommand (⟨[]⟩ : Control.CommandRegistry Nat) "noop" 0).state
      = 0 ∧
    (Control.onCommand
      (⟨[("boom", fun _ => Except.error "kaboom")]⟩ :
        Control.CommandRegistry Nat) "boom" 0).published = [] :=
  ⟨rfl, rfl, rfl, rfl⟩

/-- C7 amended: on an unknown command no handler is invoked, the state is
unchanged, and the available-commands list is only logged - nothing is
published to the status topic; on a handler exception the error is only
logged - no command_failed status is published. -/
theorem C7_command_failure_logging {S : Type}
    (registry : Control.CommandRegistry S) (command : String) (st : S)
    (hne : command ≠ "") :
    (registry.find command = none →
      Control.onCommand registry command st =
        ⟨st, [], ["Command not available", "Available commands"], false⟩) ∧
    (∀ (handler : Control.Handler S) (e : String),
      registry.find command = some handler → handler st = .error e →
      Control.onCommand registry command st =
        ⟨st, [], ["Error processing message: " ++ e], true⟩) := by
  constructor
  · intro hfind
    simp [Control.onCommand, Control.CommandRegistry.execute, hne, hfind]
  · intro handler e hfind herr
    simp [Control.onCommand, Control.CommandRegistry.execute, hne, hfind, herr]

theorem C7_witness :
    Control.onCommand (⟨[]⟩ : Control.CommandRegistry Nat) "noop" 5 =
      ⟨5, [], ["Command not available", "Available commands"], false⟩ ∧
    Control.onCommand
      (⟨[("boom", fun _ => Except.error "kaboom")]⟩ :
        Control.CommandRegistry Nat) "boom" 5 =
      ⟨5, [], ["Error processing message: " ++ "kaboom"], true⟩ := by
  constructor
  · exact (C7_command_failure_logging
      (⟨[]⟩ : Control.CommandRegistry Nat) "noop" 5 (by decide)).1 rfl
  · exact (C7_command_failure_logging
      (⟨[("boom", fun _ => Except.error "kaboom")]⟩ :
        Control.CommandRegistry Nat) "boom" 5 (by decide)).2
      (fun _ => Except.error "kaboom") "kaboom" rfl rfl

namespace Mqtt

theorem parseList_map_roundtrip {α : Type} (f : PyVal → Except String α)
    (g : α → PyVal) :
    ∀ xs : List α, (∀ x ∈ xs, f (g x) = .ok x) →
      parseList f (xs.map g) = .ok xs := by
  intro xs
  induction xs with
  | nil => intro _; rfl
  | cons x rest ih =>
    intro h
    have hx := h x (List.mem_cons_self _ _)
    have hrest := ih (fun y hy => h y (List.mem_cons_of_mem _ hy))
    simp only [List.map_cons, parseList, hx, hrest]

theorem bbox_roundtrip (b : BBox) (h : b.wf) :
    BBox.from_dict b.to_dict = .ok b := by
  obtain ⟨h1, h2⟩ := h
  simp [BBox.from_dict, BBox.to_dict, reqKey, dget, pyToFloat, BBox.make,
    not_le.mpr h1, not_le.mpr h2, okBind]

theorem detection_roundtrip (d : Detection) (h : d.wf) :
    Detection.from_dict d.to_dict = .ok d := by
  obtain ⟨h1, h2, h3, hb⟩ := h
  have hno : ¬ (d.confidence < 0 ∨ 1 < d.confidence) :=
    not_or.mpr ⟨not_lt.mpr h1, not_lt.mpr h2⟩
  simp [Detection.from_dict, Detection.to_dict, reqKey, dget, pyToInt,
    pyToStr, pyToFloat, okBind, bbox_roundtrip d.bbox hb, Detection.make,
    hno, not_lt.mpr h3]

theorem detectionMessage_roundtrip (m : DetectionMessage) (h : m.wf) :
    DetectionMessage.from_dict m.to_dict = .ok m := by
  obtain ⟨h1, h2, hdets⟩ := h
  have hlist : parseList Detection.from_dict (m.detections.map Detection.to_dict)
      = .ok m.detections :=
    parseList_map_roundtrip Detection.from_dict Detection.to_dict m.detections
      (fun d hd => detection_roundtrip d (hdets d hd))
  simp [DetectionMessage.from_dict, DetectionMessage.to_dict, reqKey, dget,
    dgetD, pyToInt, pyToStr, okBind, hlist, DetectionMessage.make,
    not_lt.mpr h1, not_lt.mpr h2]

theorem pyOptInt_optInt (v : Option Int) : pyOptInt (optInt v) = .ok v := by
  cases v <;> rfl

theorem zoneStats_roundtrip (s : ZoneStats) :
    ZoneStats.from_dict s.to_dict = .ok s := by
  simp [ZoneStats.from_dict, ZoneStats.to_dict, dgetD, dget, pyOptInt_optInt,
    okBind]

theorem zoneType_ofValue_value (t : ZoneType) :
    ZoneType.ofValue (.pstr t.value) = .ok t := by
  cases t <;> rfl

theorem eventType_ofValue_value (t : EventType) :
    EventType.ofValue (.pstr t.value) = .ok t := by
  cases t <;> rfl

theorem crossingDirection_ofValue_value (d : CrossingDirection) :
    CrossingDirection.ofValue (.pstr d.value) = .ok d := by
  cases d <;> rfl

theorem zoneEvent_roundtrip (e : ZoneEvent) (h : e.wf) :
    ZoneEvent.from_dict e.to_dict = .ok e := by
  obtain ⟨zid, zt, et, stats, tb, cd⟩ := e
  have htb : parseList pyToInt (tb.map PyVal.pint) = .ok tb :=
    parseList_map_roundtrip pyToInt PyVal.pint tb (fun x _ => rfl)
  cases cd with
  | some d =>
    cases zt <;> cases et <;> cases d <;>
      simp [ZoneEvent.from_dict, ZoneEvent.to_dict, containsKey, reqKey, dget,
        dgetD, pyToStr, okBind, ZoneType.value, EventType.value,
        CrossingDirection.value, ZoneType.ofValue, EventType.ofValue,
        CrossingDirection.ofValue, zoneStats_roundtrip, htb, ZoneEvent.make]
  | none =>
    cases zt with
    | line => exact absurd (h rfl) (fun hc => hc rfl)
    | polygon =>
      cases et <;>
        simp [ZoneEvent.from_dict, ZoneEvent.to_dict, containsKey, reqKey,
          dget, dgetD, pyToStr, okBind, ZoneType.value, EventType.value,
          ZoneType.ofValue, EventType.ofValue, zoneStats_roundtrip, htb,
          ZoneEvent.make]

theorem zoneEventMessage_roundtrip (m : ZoneEventMessage) (h : m.wf) :
    ZoneEventMessage.from_dict m.to_dict = .ok m := by
  obtain ⟨h1, h2, hzones⟩ := h
  have hlist : parseList ZoneEvent.from_dict (m.zones.map ZoneEvent.to_dict)
      = .ok m.zones :=
    parseList_map_roundtrip ZoneEvent.from_dict ZoneEvent.to_dict m.zones
      (fun e he => zoneEvent_roundtrip e (hzones e he))
  simp [ZoneEventMessage.from_dict, ZoneEventMessage.to_dict, reqKey, dget,
    dgetD, pyToInt, pyToStr, okBind, hlist, ZoneEventMessage.make,
    not_lt.mpr h1, not_lt.mpr h2]

end Mqtt

/-- C8: deserializing the serialization of a well-formed detection envelope
yields the original message, and the same round-trip equality holds for
well-formed zone-event envelopes. -/
theorem C8_envelope_roundtrip :
    (∀ m : Mqtt.DetectionMessage, m.wf →
      Mqtt.DetectionMessage.from_dict m.to_dict = .ok m) ∧
    (∀ m : Mqtt.ZoneEventMessage, m.wf →
      Mqtt.ZoneEventMessage.from_dict m.to_dict = .ok m) :=
  ⟨fun m h => Mqtt.detectionMessage_roundtrip m h,
   fun m h => Mqtt.zoneEventMessage_roundtrip m h⟩

/-- Concrete detection envelope for the C8 witness. -/
def detMsgW : Mqtt.DetectionMessage :=
  ⟨"1.0", ⟨"2025-10-24T15:30:45"⟩, 3, 0,
   [⟨7, "person", 1, ⟨100, 200, 50, 100⟩⟩]⟩

/-- Concrete zone-event envelope for the C8 witness. -/
def zoneMsgW : Mqtt.ZoneEventMessage :=
  ⟨"1.0", ⟨"2025-10-24T15:30:45"⟩, 3, 0,
   [⟨"door", .line, .crossing, ⟨some 10, some 8, none⟩, [7], some .dirIn⟩,
    ⟨"lobby", .polygon, .inside, ⟨none, none, some 2⟩, [7, 9], none⟩]⟩

theorem C8_witness :
    Mqtt.DetectionMessage.from_dict detMsgW.to_dict = .ok detMsgW ∧
    Mqtt.ZoneEventMessage.from_dict zoneMsgW.to_dict = .ok zoneMsgW := by
  constructor
  · refine C8_envelope_roundtrip.1 detMsgW ⟨by decide, by decide, ?_⟩
    intro d hd
    simp only [detMsgW, List.mem_singleton] at hd
    subst hd
    exact ⟨by decide, by decide, by decide, by decide, by decide⟩
  · refine C8_envelope_roundtrip.2 zoneMsgW ⟨by decide, by decide, ?_⟩
    intro e he
    simp only [zoneMsgW, List.mem_cons, List.mem_singleton] at he
    rcases he with he | he | he
    · subst he; intro _; simp
    · subst he; intro hline; cases hline
    · cases he

theorem C1_witness :
    ([true] : List Bool)[0]? = some true ∧
    zoneW.get_side ((5 : Int), (3 : Int)) = 1 := by
  have h := C1_detect_line_crossing_marks zoneW detsW stW [7] [true] [false]
    (Zone.stateInsert stW 7 (zoneW.get_side ((5 : Int), (3 : Int)))) rfl rfl rfl
  have hside : zoneW.get_side ((5 : Int), (3 : Int)) = 1 := by decide
  refine ⟨?_, hside⟩
  exact ((h 0 7 ((5 : Int), (3 : Int)) rfl).1.1).mpr ⟨-1, rfl, by decide, hside⟩
